import Mathlib

/-!
Shallow embedding of `mix_client.py` and `analyze_service.py` from the
mix-analyzer-service repository.

The network is modelled as an oracle (`World`): each outbound HTTP request
consumes the next prescribed outcome, where `none` stands for a transport
exception (connection error / timeout) and `some r` for a received
response.  Wall-clock time in the polling loop is modelled by a counter
that advances by each request's duration and by the explicit sleeps.
Every outbound request and sleep is recorded in an event trace so that
theorems can count network calls, sleeps and token refreshes.

Not modelled (irrelevant to the verified claims, noted where they occur):
the multipart `files` payload and MIME-type guessing (they never influence
control flow), the `.text` of a response (used only inside diagnostic
message strings), and the session-level default headers (`BASE_HEADERS`,
`Connection: keep-alive`, and the `X-CSRFToken` stash, which is mirrored
by the explicit upload headers the code passes to every POST).
-/

/-- Parsed JSON values (results of `requests.Response.json()`).  Numbers
are modelled as integers: no claim involves fractional payloads. -/
inductive Json where
  | null
  | bool (b : Bool)
  | num (n : Int)
  | str (s : String)
  | arr (elems : List Json)
  | obj (fields : List (String × Json))

/-- Python truthiness of a JSON value. -/
def Json.truthy : Json → Bool
  | .null => false
  | .bool b => b
  | .num n => n != 0
  | .str s => s != ""
  | .arr elems => !elems.isEmpty
  | .obj fields => !fields.isEmpty

/-- Test for being a JSON object (a Python dict). -/
def Json.isObj : Json → Bool
  | .obj _ => true
  | _ => false

/-- First-match association lookup (Python dicts have unique keys). -/
def jlookup : List (String × Json) → String → Option Json
  | [], _ => none
  | (k, v) :: rest, key => if k = key then some v else jlookup rest key

/-- Python `dict.get(key)`: absent keys yield `None`. -/
def dget (fields : List (String × Json)) (key : String) : Json :=
  (jlookup fields key).getD Json.null

/-- Python `dict.setdefault(key, v)`: insert at the end only when the key
is absent. -/
def setdefault (fields : List (String × Json)) (key : String) (v : Json) :
    List (String × Json) :=
  if (jlookup fields key).isSome then fields else fields ++ [(key, v)]

/-- Header and form-data dictionaries (string keys; values are strings or
the CSRF token, which the source moves around unchanged). -/
abbrev SMap := List (String × Json)

/-- Python `d[key] = v`: replace in place, else append. -/
def sset : SMap → String → Json → SMap
  | [], key, v => [(key, v)]
  | (k, w) :: rest, key, v =>
    if k = key then (key, v) :: rest else (k, w) :: sset rest key v

/-- Python `d.update(u)`: set every key of `u` in order. -/
def supdate (m u : SMap) : SMap :=
  u.foldl (fun acc kv => sset acc kv.1 kv.2) m

mutual

/-- Python `repr` of a JSON value (escaping inside string quotes is not
modelled; no claim depends on it). -/
def pyRepr : Json → String
  | .null => "None"
  | .bool b => if b then "True" else "False"
  | .num n => toString n
  | .str s => "'" ++ s ++ "'"
  | .arr elems => "[" ++ String.intercalate ", " (pyReprList elems) ++ "]"
  | .obj fields =>
    "\x7b" ++ String.intercalate ", " (pyReprFields fields) ++ "\x7d"

/-- Python `repr` of the elements of a list. -/
def pyReprList : List Json → List String
  | [] => []
  | j :: rest => pyRepr j :: pyReprList rest

/-- Python `repr` of the entries of a dict. -/
def pyReprFields : List (String × Json) → List String
  | [] => []
  | (k, v) :: rest => ("'" ++ k ++ "': " ++ pyRepr v) :: pyReprFields rest

end

/-- Python `str` as used by f-string interpolation: identity on strings,
`repr` on everything else. -/
def pyStr : Json → String
  | .str s => s
  | .null => "None"
  | .bool b => if b then "True" else "False"
  | .num n => toString n
  | .arr elems => pyRepr (.arr elems)
  | .obj fields => pyRepr (.obj fields)

/-- Configured default base URL (the `os.getenv` fallback). -/
def BASE : String := "https://mixanalytic.com"

/-- Configured default upload path. -/
def UPLOAD_PATH : String := "/upload"

/-- Result of formatting the default results template
`/api/results/` + file_id + `.json` with the file id (f-string semantics
stringify a non-string id). -/
def results_json_url (file_id : Json) : String :=
  BASE ++ "/api/results/" ++ pyStr file_id ++ ".json"

/-- Python `str.startswith`, modelled on character lists (executable in
the kernel, unlike the library string search). -/
def py_startswith (s p : String) : Bool := p.data.isPrefixOf s.data

/-- An HTTP response as far as the client observes it: status code, the
`content-type` header (empty string when absent) and the outcome of
`.json()` (`none` meaning the body is not parseable JSON).  The `.text`
payload is omitted: it only feeds diagnostic message strings. -/
structure Response where
  status_code : Nat
  content_type : String
  json : Option Json

/-- Exceptions that can escape the client. -/
inductive AErr where
  | transport                  -- requests-level exception (timeout, connection error)
  | http_status (code : Nat)   -- requests raise_for_status on 4xx/5xx
  | csrf_not_json              -- RuntimeError: could not parse CSRF response as JSON
  | csrf_no_token              -- RuntimeError: could not fetch CSRF token
  | attr_error                 -- AttributeError: .get / .setdefault on a non-dict
  | upload_failed (code : Nat) -- RuntimeError: upload failed (status)
  | upload_not_json            -- RuntimeError: upload returned non-JSON response
  | no_file_id                 -- RuntimeError: no file_id in upload response

/-- Embedding of `_get_csrf`: process the outcome of the `GET /csrf-token`
request (`none` = transport exception).  `raise_for_status` raises on
4xx/5xx; a non-JSON body and a missing or falsy token raise
`RuntimeError`; `data.get` on a non-object body raises `AttributeError`.
The token (`data.get("csrf_token") or data.get("csrfToken")`) is also
stashed in the session headers, which is mirrored by the explicit post
headers built from the returned token. -/
def get_csrf (outcome : Option Response) : Except AErr Json :=
  match outcome with
  | none => .error .transport
  | some r =>
    if 400 ≤ r.status_code ∧ r.status_code < 600 then
      .error (.http_status r.status_code)
    else
      match r.json with
      | none => .error .csrf_not_json
      | some (.obj fields) =>
        let token :=
          if (dget fields "csrf_token").truthy then dget fields "csrf_token"
          else dget fields "csrfToken"
        if token.truthy then .ok token else .error .csrf_no_token
      | some _ => .error .attr_error

/-- Embedding of `_browser_like_post_headers`. -/
def browser_like_post_headers (csrf_token : Json) : SMap :=
  [("Origin", .str BASE),
   ("Referer", .str (BASE ++ "/")),
   ("X-Requested-With", .str "XMLHttpRequest"),
   ("X-CSRFToken", csrf_token),
   ("Accept", .str "application/json, text/plain, */*")]

/-- Trace of outbound network activity and sleeps. -/
inductive NetEv where
  | csrf_get
  | post (headers data : SMap)
  | poll_get (url : String)
  | sleep (seconds : Nat)

/-- Number of CSRF-token GETs in a trace. -/
def countCsrfGets : List NetEv → Nat
  | [] => 0
  | .csrf_get :: rest => countCsrfGets rest + 1
  | _ :: rest => countCsrfGets rest

/-- Number of upload POSTs in a trace. -/
def countPosts : List NetEv → Nat
  | [] => 0
  | .post _ _ :: rest => countPosts rest + 1
  | _ :: rest => countPosts rest

/-- Number of sleeps in a trace. -/
def countSleeps : List NetEv → Nat
  | [] => 0
  | .sleep _ :: rest => countSleeps rest + 1
  | _ :: rest => countSleeps rest

/-- Number of poll GETs in a trace. -/
def countPollGets : List NetEv → Nat
  | [] => 0
  | .poll_get _ :: rest => countPollGets rest + 1
  | _ :: rest => countPollGets rest

/-- Statuses that trigger the backoff retry. -/
def overload_statuses : List Nat := [429, 500, 502, 503, 504]

/-- Next prescribed outcome for a `do_post`; an exhausted oracle behaves
as a transport exception. -/
def firstOutcome : List (Option Response) → Option Response
  | [] => none
  | o :: _ => o

/-- Outcome after the next one. -/
def secondOutcome : List (Option Response) → Option Response
  | [] => none
  | _ :: rest => firstOutcome rest

/-- State after the 401/403 CSRF-refresh branch of
`_post_with_optional_retry`: current response, current `headers` and
`data` dicts, the events of the branch, and the unconsumed post
outcomes. -/
structure RefreshOut where
  resp : Response
  headers : SMap
  data : SMap
  events : List NetEv
  remaining : List (Option Response)

/-- Embedding of the `try:` block guarded by
`r.status_code in (401, 403) and retry_csrf`: one `_get_csrf`, then
`headers.update(...)`, `data["csrf_token"] = ...` and one retried
`do_post()`; any exception leaves the original response standing
(`except Exception: pass`). -/
def refresh_branch (headers data : SMap) (retry_csrf : Bool) (r1 : Response)
    (posts : List (Option Response)) (csrf_outcome : Option Response) :
    RefreshOut :=
  if (r1.status_code = 401 ∨ r1.status_code = 403) ∧ retry_csrf then
    match get_csrf csrf_outcome with
    | .error _ => ⟨r1, headers, data, [.csrf_get], posts⟩
    | .ok new_csrf =>
      let h := supdate headers (browser_like_post_headers new_csrf)
      let d := sset data "csrf_token" new_csrf
      match posts with
      | [] => ⟨r1, h, d, [.csrf_get, .post h d], []⟩
      | none :: rest => ⟨r1, h, d, [.csrf_get, .post h d], rest⟩
      | some r2 :: rest => ⟨r2, h, d, [.csrf_get, .post h d], rest⟩
  else ⟨r1, headers, data, [], posts⟩

/-- Embedding of the `r.status_code in (429, 500, 502, 503, 504)` branch:
`time.sleep(2)` and one retried `do_post()` whose exception, unlike the
refresh branch, propagates. -/
def overload_branch (st : RefreshOut) : Except Unit Response × List NetEv :=
  if st.resp.status_code ∈ overload_statuses then
    match firstOutcome st.remaining with
    | none => (.error (), st.events ++ [.sleep 2, .post st.headers st.data])
    | some r3 => (.ok r3, st.events ++ [.sleep 2, .post st.headers st.data])
  else (.ok st.resp, st.events)

/-- Embedding of `_post_with_optional_retry`: initial POST, the optional
single CSRF refresh retry on 401/403, then the optional single sleep-2
retry on an overload status.  `.error ()` models an exception escaping
the call (the initial POST or the overload retry raising). -/
def post_with_optional_retry (headers data : SMap) (retry_csrf : Bool)
    (posts : List (Option Response)) (csrf_outcome : Option Response) :
    Except Unit Response × List NetEv :=
  match posts with
  | [] => (.error (), [.post headers data])
  | none :: _ => (.error (), [.post headers data])
  | some r1 :: rest =>
    let st := refresh_branch headers data retry_csrf r1 rest csrf_outcome
    let ob := overload_branch st
    (ob.1, .post headers data :: ob.2)

/-- One iteration's worth of oracle data for the polling loop: how long
the GET itself takes and its outcome (`none` = transport exception, which
the loop does NOT catch). -/
structure PollStep where
  elapsed_by_get : Nat
  resp : Option Response

/-- Embedding of the `while time.time() - start < timeout` loop of
`_poll_json_results`.  `now` is the elapsed time since loop start; each
iteration consumes the next prescribed outcome.  An exhausted oracle ends
the loop like a timeout (a real run always has an outcome for every
in-time iteration, since every GET consumes wall-clock time). -/
def poll_loop (url : String) (timeout : Nat) :
    Nat → List PollStep → Except Unit (Option Json) × List NetEv
  | _, [] => (.ok none, [])
  | now, step :: rest =>
    if now < timeout then
      match step.resp with
      | none => (.error (), [.poll_get url])
      | some r =>
        let t := now + step.elapsed_by_get
        if r.status_code = 200 then
          if py_startswith r.content_type "application/json" then
            match r.json with
            | some j => (.ok (some j), [.poll_get url])
            | none =>
              let next := poll_loop url timeout (t + 2) rest
              (next.1, .poll_get url :: .sleep 2 :: next.2)
          else
            let next := poll_loop url timeout t rest
            (next.1, .poll_get url :: next.2)
        else if r.status_code = 404 ∨ r.status_code = 403 then
          let next := poll_loop url timeout (t + 3) rest
          (next.1, .poll_get url :: .sleep 3 :: next.2)
        else
          let next := poll_loop url timeout (t + 2) rest
          (next.1, .poll_get url :: .sleep 2 :: next.2)
    else (.ok none, [])

/-- Embedding of `_poll_json_results`. -/
def poll_json_results (file_id : Json) (timeout : Nat)
    (steps : List PollStep) : Except Unit (Option Json) × List NetEv :=
  poll_loop (results_json_url file_id) timeout 0 steps

/-- Embedding of `_visuals_fallback`. -/
def visuals_fallback (file_id : Json) (filename : String) : Json :=
  let static := BASE ++ "/static/uploads/" ++ pyStr file_id
  .obj
    [("file_id", file_id),
     ("filename", .str filename),
     ("status", .str "visuals_ready_only"),
     ("visualizations", .obj
       [("waveform", .str (static ++ "/waveform.png")),
        ("spectrogram", .str (static ++ "/spectrogram.png")),
        ("spectrum", .str (static ++ "/spectrum.png")),
        ("chromagram", .str (static ++ "/chromagram.png")),
        ("stereo_field", .str (static ++ "/stereo_field.png")),
        ("vectorscope", .str (static ++ "/vectorscope.png")),
        ("dynamic_range", .str (static ++ "/dynamic_range.png")),
        ("spatial_field", .str (static ++ "/spatial_field.png"))])]

/-- Oracle for one `analyze_track` call: the initial `/csrf-token` GET,
the successive upload POST outcomes, the refresh `/csrf-token` GET (used
only if the 401/403 branch fires) and the poll GET outcomes. -/
structure World where
  csrf1 : Option Response
  posts : List (Option Response)
  csrf2 : Option Response
  polls : List PollStep

/-- Python `str(bool(x)).lower()`. -/
def py_bool_str (b : Bool) : String := if b then "true" else "false"

/-- The `data` dict built by `analyze_track` (the instrumental flag is
sent under both alternate keys). -/
def upload_data (csrf : Json) (is_instrumental : Bool) : SMap :=
  [("csrf_token", csrf),
   ("is_instrumental", .str (py_bool_str is_instrumental)),
   ("instrumental", .str (py_bool_str is_instrumental))]

/-- Embedding of `analyze_track` (the multipart `files` payload and the
MIME guess do not influence control flow and are not modelled). -/
def analyze_track (filename : String) (is_instrumental : Bool)
    (timeout : Nat) (retry_csrf : Bool) (w : World) :
    Except AErr Json × List NetEv :=
  match get_csrf w.csrf1 with
  | .error e => (.error e, [.csrf_get])
  | .ok csrf =>
    let pr := post_with_optional_retry (browser_like_post_headers csrf)
      (upload_data csrf is_instrumental) retry_csrf w.posts w.csrf2
    let evs := NetEv.csrf_get :: pr.2
    match pr.1 with
    | .error _ => (.error .transport, evs)
    | .ok r =>
      if r.status_code ≠ 200 then (.error (.upload_failed r.status_code), evs)
      else
        match r.json with
        | none => (.error .upload_not_json, evs)
        | some (.obj fields) =>
          if (dget fields "results").truthy then (.ok (.obj fields), evs)
          else
            let file_id := dget fields "file_id"
            if ¬ file_id.truthy then (.error .no_file_id, evs)
            else
              let pl := poll_json_results file_id timeout w.polls
              let evs2 := evs ++ pl.2
              match pl.1 with
              | .error _ => (.error .transport, evs2)
              | .ok none => (.ok (visuals_fallback file_id filename), evs2)
              | .ok (some json_results) =>
                if json_results.truthy then
                  match json_results with
                  | .obj jfields =>
                    (.ok (.obj (setdefault
                        (setdefault jfields "file_id" file_id)
                        "filename" (.str filename))), evs2)
                  | _ => (.error .attr_error, evs2)
                else (.ok (visuals_fallback file_id filename), evs2)
        | some _ => (.error .attr_error, evs)

/-- Detail string of the service's HTTP 500 replies, kept structured: the
handler renders it as `"Type: message"`; the precise rendering of client
error messages (which embed response-body slices) is not needed by any
claim. -/
inductive Detail where
  | value_error (msg : String)
  | client_error (e : AErr)

/-- Outcome of the FastAPI `/analyze` handler. -/
inductive ServiceOutcome where
  | ok (body : Json)
  | http_exception (status : Nat) (detail : Detail)

/-- Python `song.filename or "upload.mp3"` (an empty string is falsy). -/
def filename_or_default (filename : Option String) : String :=
  match filename with
  | none => "upload.mp3"
  | some s => if s = "" then "upload.mp3" else s

/-- Embedding of the `POST /analyze` handler: an empty upload raises
`ValueError` before `analyze_track` runs; every exception is caught and
mapped to a 500 response carrying the error as its detail. -/
def analyze (song : List Nat) (song_filename : Option String)
    (instrumental : Bool) (timeout : Nat) (w : World) :
    ServiceOutcome × List NetEv :=
  if song.isEmpty then
    (.http_exception 500 (.value_error "Uploaded file is empty"), [])
  else
    let res := analyze_track (filename_or_default song_filename) instrumental
      timeout true w
    match res.1 with
    | .ok j => (.ok j, res.2)
    | .error e => (.http_exception 500 (.client_error e), res.2)

/-! ### Dictionary lemmas -/

/-- Lookup in an appended list falls through to the suffix only when the
key is absent from the prefix. -/
theorem jlookup_append_of_none {l : List (String × Json)} {key : String}
    (h : jlookup l key = none) (l' : List (String × Json)) :
    jlookup (l ++ l') key = jlookup l' key := by
  induction l with
  | nil => rfl
  | cons kv rest ih =>
    obtain ⟨k, w⟩ := kv
    rw [List.cons_append]
    by_cases hk : k = key
    · simp [jlookup, hk] at h
    · simp only [jlookup, hk, if_false] at h ⊢
      exact ih h

/-- Lookup in an appended list is decided by the prefix when the key is
present there. -/
theorem jlookup_append_of_some {l : List (String × Json)} {key : String}
    {v : Json} (h : jlookup l key = some v) (l' : List (String × Json)) :
    jlookup (l ++ l') key = some v := by
  induction l with
  | nil => simp [jlookup] at h
  | cons kv rest ih =>
    obtain ⟨k, w⟩ := kv
    rw [List.cons_append]
    by_cases hk : k = key
    · simp only [jlookup, hk, if_true] at h ⊢
      exact h
    · simp only [jlookup, hk, if_false] at h ⊢
      exact ih h

/-- Setdefault on a present key leaves the dict unchanged. -/
theorem setdefault_of_present {fields : List (String × Json)} {key : String}
    (h : (jlookup fields key).isSome) (w : Json) :
    setdefault fields key w = fields := by
  simp [setdefault, h]

/-- Setdefault on an absent key makes the key map to the default. -/
theorem jlookup_setdefault_self_of_none {fields : List (String × Json)}
    {key : String} (h : jlookup fields key = none) (v : Json) :
    jlookup (setdefault fields key v) key = some v := by
  simp only [setdefault, h, Option.isSome_none, Bool.false_eq_true, if_false]
  rw [jlookup_append_of_none h]
  simp [jlookup]

/-- Setdefault never changes the binding of a different key. -/
theorem jlookup_setdefault_other {fields : List (String × Json)}
    {key key' : String} (h : key' ≠ key) (v : Json) :
    jlookup (setdefault fields key v) key' = jlookup fields key' := by
  unfold setdefault
  split
  · rfl
  · cases hl : jlookup fields key' with
    | none =>
      rw [jlookup_append_of_none hl]
      simp [jlookup, h.symm]
    | some w => rw [jlookup_append_of_some hl]

/-- Assignment makes the key map to the new value. -/
theorem jlookup_sset_self (m : SMap) (key : String) (v : Json) :
    jlookup (sset m key v) key = some v := by
  induction m with
  | nil => simp [sset, jlookup]
  | cons kv rest ih =>
    obtain ⟨k, w⟩ := kv
    unfold sset
    split
    · simp [jlookup]
    · simp [jlookup, *]

/-- Assignment never changes the binding of a different key. -/
theorem jlookup_sset_other {key key' : String} (h : key' ≠ key)
    (m : SMap) (v : Json) :
    jlookup (sset m key v) key' = jlookup m key' := by
  have hk' : key ≠ key' := Ne.symm h
  induction m with
  | nil => simp [sset, jlookup, hk']
  | cons kv rest ih =>
    obtain ⟨k, w⟩ := kv
    by_cases hk : k = key
    · simp [sset, hk, jlookup, hk']
    · simp only [sset, hk, if_false]
      by_cases hk2 : k = key'
      · simp [jlookup, hk2]
      · simp [jlookup, hk2, ih]

/-- After `headers.update(_browser_like_post_headers(tok))` the
`X-CSRFToken` header is the refreshed token. -/
theorem supdate_browser_headers_token (headers : SMap) (tok : Json) :
    jlookup (supdate headers (browser_like_post_headers tok)) "X-CSRFToken" =
      some tok := by
  simp only [supdate, browser_like_post_headers, List.foldl]
  rw [jlookup_sset_other (by decide), jlookup_sset_self]

/-! ### Trace-count lemmas -/

/-- Counting poll GETs distributes over concatenation. -/
theorem countPollGets_append (a b : List NetEv) :
    countPollGets (a ++ b) = countPollGets a + countPollGets b := by
  induction a with
  | nil => simp [countPollGets]
  | cons e rest ih =>
    cases e
    case poll_get => simp [countPollGets, ih]; omega
    all_goals simp [countPollGets, ih]

/-- The refresh branch issues no poll GET. -/
theorem countPollGets_refresh_branch (headers data : SMap)
    (retry_csrf : Bool) (r1 : Response) (posts : List (Option Response))
    (csrf_outcome : Option Response) :
    countPollGets
      (refresh_branch headers data retry_csrf r1 posts csrf_outcome).events
      = 0 := by
  unfold refresh_branch
  split
  · cases get_csrf csrf_outcome with
    | error e => simp [countPollGets]
    | ok tok =>
      cases posts with
      | nil => simp [countPollGets]
      | cons o rest => cases o <;> simp [countPollGets]
  · simp [countPollGets]

/-- The overload branch adds no poll GET. -/
theorem countPollGets_overload_branch (st : RefreshOut) :
    countPollGets (overload_branch st).2 = countPollGets st.events := by
  unfold overload_branch
  split
  · cases firstOutcome st.remaining <;>
      simp [countPollGets_append, countPollGets]
  · rfl

/-- The upload POST helper never issues a poll GET. -/
theorem countPollGets_post_with_optional_retry (headers data : SMap)
    (retry_csrf : Bool) (posts : List (Option Response))
    (csrf_outcome : Option Response) :
    countPollGets
      (post_with_optional_retry headers data retry_csrf posts csrf_outcome).2
      = 0 := by
  unfold post_with_optional_retry
  cases posts with
  | nil => simp [countPollGets]
  | cons o rest =>
    cases o with
    | none => simp [countPollGets]
    | some r1 =>
      simp only [countPollGets, countPollGets_overload_branch,
        countPollGets_refresh_branch]

/-! ### Polling-loop lemmas -/

/-- Number of loop iterations the wall clock admits when no iteration
sleeps (each advances time only by its GET's duration). -/
def in_time_polls (timeout : Nat) : Nat → List PollStep → Nat
  | _, [] => 0
  | now, s :: rest =>
    if now < timeout then in_time_polls timeout (now + s.elapsed_by_get) rest + 1
    else 0

/-- A run in which every response is a 200 with a non-JSON content type
never returns a payload and never sleeps: its trace is one bare GET per
in-time iteration. -/
theorem poll_loop_all_nonjson (url : String) (timeout : Nat)
    (steps : List PollStep)
    (h : ∀ s ∈ steps, ∃ r, s.resp = some r ∧ r.status_code = 200 ∧
      py_startswith r.content_type "application/json" = false) :
    ∀ now, poll_loop url timeout now steps =
      (.ok none,
       List.replicate (in_time_polls timeout now steps) (.poll_get url)) := by
  induction steps with
  | nil => intro now; simp [poll_loop, in_time_polls]
  | cons s rest ih =>
    intro now
    obtain ⟨r, hr, h200, hct⟩ := h s (by simp)
    by_cases hnow : now < timeout
    · rw [poll_loop]
      simp only [hnow, if_true, hr, h200, hct, Bool.false_eq_true, if_false,
        ite_true]
      rw [ih (fun s' hs' => h s' (by simp [hs']))]
      simp [in_time_polls, hnow, List.replicate_succ]
    · rw [poll_loop]
      simp [hnow, in_time_polls]

/-- When every poll GET yields a response, the loop never raises. -/
theorem poll_loop_no_transport (url : String) (timeout : Nat)
    (steps : List PollStep) (h : ∀ s ∈ steps, s.resp ≠ none) :
    ∀ now, ∃ o, (poll_loop url timeout now steps).1 = .ok o := by
  induction steps with
  | nil => intro now; exact ⟨none, rfl⟩
  | cons s rest ih =>
    intro now
    have hrest : ∀ s' ∈ rest, s'.resp ≠ none :=
      fun s' hs' => h s' (by simp [hs'])
    by_cases hnow : now < timeout
    · cases hr : s.resp with
      | none => exact absurd hr (h s (by simp))
      | some r =>
        rw [poll_loop]
        simp only [hnow, if_true, hr]
        by_cases h200 : r.status_code = 200
        · by_cases hct : py_startswith r.content_type "application/json" = true
          · cases hj : r.json with
            | some j =>
              exact ⟨some j, by simp [h200, hct, hj]⟩
            | none =>
              obtain ⟨o, ho⟩ := ih hrest (now + s.elapsed_by_get + 2)
              exact ⟨o, by simp [h200, hct, hj, ho]⟩
          · obtain ⟨o, ho⟩ := ih hrest (now + s.elapsed_by_get)
            exact ⟨o, by simp [h200, hct, ho]⟩
        · by_cases h44 : r.status_code = 404 ∨ r.status_code = 403
          · obtain ⟨o, ho⟩ := ih hrest (now + s.elapsed_by_get + 3)
            exact ⟨o, by simp [h200, h44, ho]⟩
          · obtain ⟨o, ho⟩ := ih hrest (now + s.elapsed_by_get + 2)
            exact ⟨o, by simp [h200, h44, ho]⟩
    · exact ⟨none, by rw [poll_loop]; simp [hnow]⟩

/-- A JSON payload returned by the loop comes from some step's response
body. -/
theorem poll_loop_payload_source (url : String) (timeout : Nat)
    (steps : List PollStep) :
    ∀ now j, (poll_loop url timeout now steps).1 = .ok (some j) →
      ∃ s ∈ steps, ∃ r, s.resp = some r ∧ r.json = some j := by
  induction steps with
  | nil => intro now j hres; simp [poll_loop] at hres
  | cons s rest ih =>
    intro now j hres
    by_cases hnow : now < timeout
    · rw [poll_loop] at hres
      simp only [hnow, if_true] at hres
      cases hr : s.resp with
      | none => rw [hr] at hres; simp at hres
      | some r =>
        rw [hr] at hres
        by_cases h200 : r.status_code = 200
        · by_cases hct : py_startswith r.content_type "application/json" = true
          · cases hj : r.json with
            | some j' =>
              simp [h200, hct, hj] at hres
              subst hres
              exact ⟨s, by simp, r, hr, hj⟩
            | none =>
              simp [h200, hct, hj] at hres
              obtain ⟨s', hs', r', hr', hj'⟩ := ih _ _ hres
              exact ⟨s', by simp [hs'], r', hr', hj'⟩
          · simp [h200, hct] at hres
            obtain ⟨s', hs', r', hr', hj'⟩ := ih _ _ hres
            exact ⟨s', by simp [hs'], r', hr', hj'⟩
        · by_cases h44 : r.status_code = 404 ∨ r.status_code = 403
          · simp [h200, h44] at hres
            obtain ⟨s', hs', r', hr', hj'⟩ := ih _ _ hres
            exact ⟨s', by simp [hs'], r', hr', hj'⟩
          · simp [h200, h44] at hres
            obtain ⟨s', hs', r', hr', hj'⟩ := ih _ _ hres
            exact ⟨s', by simp [hs'], r', hr', hj'⟩
    · rw [poll_loop] at hres
      simp [hnow] at hres

/-- A trace made of bare poll GETs contains no sleep. -/
theorem countSleeps_replicate_poll_get (n : Nat) (url : String) :
    countSleeps (List.replicate n (.poll_get url)) = 0 := by
  induction n with
  | zero => rfl
  | succ m ih => simp [List.replicate_succ, countSleeps, ih]

/-! ### Claim theorems -/

/-- C5: for every `/analyze` request whose uploaded file reads as an empty
byte sequence, the service fails with the input error (the `ValueError`
surfaced as a 500 with detail "Uploaded file is empty") and its network
trace is empty — no token fetch, upload POST or poll GET is issued. -/
theorem c5_empty_upload_fails_before_network (song_filename : Option String)
    (instrumental : Bool) (timeout : Nat) (w : World) :
    analyze [] song_filename instrumental timeout w =
      (.http_exception 500 (.value_error "Uploaded file is empty"), []) := rfl

/-- C7: for every file id and filename, the visuals fallback is a mapping
carrying that file id, that filename, a status equal to
"visuals_ready_only", and exactly eight visualization URLs named
waveform, spectrogram, spectrum, chromagram, stereo_field, vectorscope,
dynamic_range and spatial_field, each equal to
`BASE ++ "/static/uploads/" ++ file_id ++ "/" ++ name ++ ".png"`. -/
theorem c7_visuals_fallback_shape (fid filename : String) :
    ∃ fields, visuals_fallback (.str fid) filename = .obj fields ∧
      dget fields "file_id" = .str fid ∧
      dget fields "filename" = .str filename ∧
      dget fields "status" = .str "visuals_ready_only" ∧
      ∃ vis, dget fields "visualizations" = .obj vis ∧
        vis.map Prod.fst =
          ["waveform", "spectrogram", "spectrum", "chromagram",
           "stereo_field", "vectorscope", "dynamic_range", "spatial_field"] ∧
        ∀ p ∈ vis,
          p.2 =
            .str (BASE ++ "/static/uploads/" ++ fid ++ "/" ++ p.1 ++ ".png") := by
  refine ⟨_, rfl, ?_, ?_, ?_, ?_⟩
  · simp [dget, jlookup, pyStr]
  · simp [dget, jlookup, pyStr]
  · simp [dget, jlookup, pyStr]
  · refine ⟨_, rfl, ?_, ?_⟩
    · simp
    · intro p hp
      simp only [List.mem_cons, List.not_mem_nil, or_false] at hp
      rcases hp with h | h | h | h | h | h | h | h <;>
        subst h <;> simp [pyStr, String.append_assoc]

/-- C6 (counterexample): the claim quantifies over every CSRF-token
response, but a response whose HTTP status is an error (4xx/5xx) raises
through `raise_for_status` before the body is ever examined.  Here the
body parses as JSON and carries a truthy "csrf_token", yet the call does
not return that value — it raises the HTTP status error. -/
theorem c6_counterexample :
    (dget [("csrf_token", Json.str "tok")] "csrf_token").truthy = true ∧
    get_csrf (some ⟨500, "application/json",
        some (.obj [("csrf_token", .str "tok")])⟩) =
      .error (.http_status 500) ∧
    get_csrf (some ⟨500, "application/json",
        some (.obj [("csrf_token", .str "tok")])⟩) ≠
      .ok (.str "tok") := by
  refine ⟨rfl, rfl, ?_⟩
  intro h
  exact Except.noConfusion h

/-- C6 (amended): for every CSRF-token response whose HTTP status is not
an error status (so `raise_for_status` does not raise) and whose body
parses as a JSON object, a truthy value under "csrf_token" or "csrfToken"
is returned (preferring "csrf_token"); if neither key yields a truthy
value, or the body is not parseable JSON, `_get_csrf` raises a protocol
error (`RuntimeError`). -/
theorem c6_token_extraction (r : Response) (fields : List (String × Json))
    (hstatus : ¬ (400 ≤ r.status_code ∧ r.status_code < 600)) :
    (r.json = none → get_csrf (some r) = .error .csrf_not_json) ∧
    (r.json = some (.obj fields) →
      ((dget fields "csrf_token").truthy = true →
        get_csrf (some r) = .ok (dget fields "csrf_token")) ∧
      ((dget fields "csrf_token").truthy = false →
        (dget fields "csrfToken").truthy = true →
        get_csrf (some r) = .ok (dget fields "csrfToken")) ∧
      ((dget fields "csrf_token").truthy = false →
        (dget fields "csrfToken").truthy = false →
        get_csrf (some r) = .error .csrf_no_token)) := by
  constructor
  · intro hj
    simp [get_csrf, hstatus, hj]
  · intro hj
    refine ⟨?_, ?_, ?_⟩
    · intro h1
      simp [get_csrf, hstatus, hj, h1]
    · intro h1 h2
      simp [get_csrf, hstatus, hj, h1, h2]
    · intro h1 h2
      simp [get_csrf, hstatus, hj, h1, h2]

/-- C6 (witness): the amended theorem applied to a concrete 200 response
carrying the token under the alternate "csrfToken" key. -/
theorem c6_token_extraction_witness :
    get_csrf (some ⟨200, "application/json",
        some (.obj [("csrfToken", .str "t2")])⟩) =
      .ok (.str "t2") :=
  ((c6_token_extraction
      ⟨200, "application/json", some (.obj [("csrfToken", .str "t2")])⟩
      [("csrfToken", .str "t2")] (by decide)).2 rfl).2.1 rfl rfl

/-- C9: a poll response with HTTP 200 whose content type does not start
with "application/json" causes neither a return nor a sleep — the loop is
re-entered immediately with only the GET's own duration elapsed — so a
run made entirely of such responses is re-requested with no backoff
delay (its trace is one bare GET per in-time iteration and contains no
sleep event) and ends with no payload when the wall-clock timeout
elapses. -/
theorem c9_nonjson_200_immediate_reloop (file_id : Json) (timeout : Nat)
    (steps : List PollStep)
    (hall : ∀ s ∈ steps, ∃ r, s.resp = some r ∧ r.status_code = 200 ∧
      py_startswith r.content_type "application/json" = false) :
    ((poll_json_results file_id timeout steps).1 = .ok none ∧
     (poll_json_results file_id timeout steps).2 =
       List.replicate (in_time_polls timeout 0 steps)
         (.poll_get (results_json_url file_id)) ∧
     countSleeps (poll_json_results file_id timeout steps).2 = 0) ∧
    (∀ url now s rest, now < timeout →
      ∀ r, s.resp = some r → r.status_code = 200 →
        py_startswith r.content_type "application/json" = false →
        poll_loop url timeout now (s :: rest) =
          ((poll_loop url timeout (now + s.elapsed_by_get) rest).1,
           .poll_get url ::
             (poll_loop url timeout (now + s.elapsed_by_get) rest).2)) := by
  constructor
  · have h := poll_loop_all_nonjson (results_json_url file_id) timeout steps
      hall 0
    refine ⟨?_, ?_, ?_⟩
    · rw [poll_json_results, h]
    · rw [poll_json_results, h]
    · rw [poll_json_results, h]
      exact countSleeps_replicate_poll_get _ _
  · intro url now s rest hnow r hr h200 hct
    rw [poll_loop]
    simp [hnow, hr, h200, hct]

/-- C9 (witness): a single in-time 200 text/html poll yields no payload. -/
theorem c9_nonjson_witness :
    (poll_json_results (.str "f") 5
        [⟨1, some ⟨200, "text/html", some .null⟩⟩]).1 = .ok none :=
  ((c9_nonjson_200_immediate_reloop (.str "f") 5
      [⟨1, some ⟨200, "text/html", some .null⟩⟩]
      (by
        intro s hs
        simp only [List.mem_singleton] at hs
        subst hs
        exact ⟨⟨200, "text/html", some .null⟩, rfl, rfl, rfl⟩)).1).1

/-- C4: a 200 upload response whose parsed JSON carries a truthy (the
spec's "non-empty") "results" field is returned verbatim and no polling
request is issued. -/
theorem c4_cached_results_short_circuit
    (filename : String) (is_instrumental : Bool) (timeout : Nat)
    (retry_csrf : Bool) (w : World) (csrf : Json) (r : Response)
    (fields : List (String × Json))
    (hcsrf : get_csrf w.csrf1 = .ok csrf)
    (hpost : (post_with_optional_retry (browser_like_post_headers csrf)
        (upload_data csrf is_instrumental) retry_csrf w.posts w.csrf2).1 =
      .ok r)
    (hstatus : r.status_code = 200)
    (hjson : r.json = some (.obj fields))
    (hres : (dget fields "results").truthy = true) :
    (analyze_track filename is_instrumental timeout retry_csrf w).1 =
      .ok (.obj fields) ∧
    countPollGets
      (analyze_track filename is_instrumental timeout retry_csrf w).2 = 0 := by
  constructor
  · simp [analyze_track, hcsrf, hpost, hstatus, hjson, hres]
  · simp [analyze_track, hcsrf, hpost, hstatus, hjson, hres, countPollGets,
      countPollGets_post_with_optional_retry]

/-- C4 (witness): a concrete cached-results upload round trip. -/
theorem c4_cached_results_witness :
    (analyze_track "a.mp3" false 60 true
        ⟨some ⟨200, "", some (.obj [("csrf_token", .str "t")])⟩,
         [some ⟨200, "", some (.obj [("results", .arr [.num 1])])⟩],
         none, []⟩).1 = .ok (.obj [("results", .arr [.num 1])]) :=
  (c4_cached_results_short_circuit "a.mp3" false 60 true
    ⟨some ⟨200, "", some (.obj [("csrf_token", .str "t")])⟩,
     [some ⟨200, "", some (.obj [("results", .arr [.num 1])])⟩],
     none, []⟩
    (.str "t") ⟨200, "", some (.obj [("results", .arr [.num 1])])⟩
    [("results", .arr [.num 1])] rfl rfl rfl rfl rfl).1

/-- C8: a 200 upload response without a truthy "results" field and with
no "file_id" key raises the fatal missing-file_id protocol error before
any polling request is issued. -/
theorem c8_missing_file_id_fatal
    (filename : String) (is_instrumental : Bool) (timeout : Nat)
    (retry_csrf : Bool) (w : World) (csrf : Json) (r : Response)
    (fields : List (String × Json))
    (hcsrf : get_csrf w.csrf1 = .ok csrf)
    (hpost : (post_with_optional_retry (browser_like_post_headers csrf)
        (upload_data csrf is_instrumental) retry_csrf w.posts w.csrf2).1 =
      .ok r)
    (hstatus : r.status_code = 200)
    (hjson : r.json = some (.obj fields))
    (hres : (dget fields "results").truthy = false)
    (hfid : jlookup fields "file_id" = none) :
    (analyze_track filename is_instrumental timeout retry_csrf w).1 =
      .error .no_file_id ∧
    countPollGets
      (analyze_track filename is_instrumental timeout retry_csrf w).2 = 0 := by
  have hres' : ((jlookup fields "results").getD Json.null).truthy = false := hres
  have hnull : Json.null.truthy = false := rfl
  constructor
  · simp [analyze_track, hcsrf, hpost, hstatus, hjson, hres', dget, hfid, hnull]
  · simp [analyze_track, hcsrf, hpost, hstatus, hjson, hres', dget, hfid, hnull,
      countPollGets, countPollGets_post_with_optional_retry]

/-- C8 (witness): an upload response with neither results nor file_id. -/
theorem c8_missing_file_id_witness :
    (analyze_track "b.mp3" false 60 true
        ⟨some ⟨200, "", some (.obj [("csrf_token", .str "t")])⟩,
         [some ⟨200, "", some (.obj [("status", .str "pending")])⟩],
         none, []⟩).1 = .error .no_file_id :=
  (c8_missing_file_id_fatal "b.mp3" false 60 true
    ⟨some ⟨200, "", some (.obj [("csrf_token", .str "t")])⟩,
     [some ⟨200, "", some (.obj [("status", .str "pending")])⟩],
     none, []⟩
    (.str "t") ⟨200, "", some (.obj [("status", .str "pending")])⟩
    [("status", .str "pending")] rfl rfl rfl rfl rfl rfl).1

/-- C10: a 200 upload response whose "file_id" key is present but maps to
a falsy value (empty string, null, 0 or false) raises the very same
missing-file_id fatal error (`AErr.no_file_id`, the single raise site) as
when the key is absent, again before any polling request. -/
theorem c10_falsy_file_id_fatal
    (filename : String) (is_instrumental : Bool) (timeout : Nat)
    (retry_csrf : Bool) (w : World) (csrf : Json) (r : Response)
    (fields : List (String × Json)) (v : Json)
    (hcsrf : get_csrf w.csrf1 = .ok csrf)
    (hpost : (post_with_optional_retry (browser_like_post_headers csrf)
        (upload_data csrf is_instrumental) retry_csrf w.posts w.csrf2).1 =
      .ok r)
    (hstatus : r.status_code = 200)
    (hjson : r.json = some (.obj fields))
    (hres : (dget fields "results").truthy = false)
    (hfid : jlookup fields "file_id" = some v)
    (hv : v.truthy = false) :
    (analyze_track filename is_instrumental timeout retry_csrf w).1 =
      .error .no_file_id ∧
    countPollGets
      (analyze_track filename is_instrumental timeout retry_csrf w).2 = 0 := by
  have hres' : ((jlookup fields "results").getD Json.null).truthy = false := hres
  constructor
  · simp [analyze_track, hcsrf, hpost, hstatus, hjson, hres', dget, hfid, hv]
  · simp [analyze_track, hcsrf, hpost, hstatus, hjson, hres', dget, hfid, hv,
      countPollGets, countPollGets_post_with_optional_retry]

/-- C10 (witness): the four falsy file_id payloads all hit the
missing-file_id error; shown here for the empty string. -/
theorem c10_falsy_file_id_witness :
    (analyze_track "c.mp3" false 60 true
        ⟨some ⟨200, "", some (.obj [("csrf_token", .str "t")])⟩,
         [some ⟨200, "", some (.obj [("file_id", .str "")])⟩],
         none, []⟩).1 = .error .no_file_id :=
  (c10_falsy_file_id_fatal "c.mp3" false 60 true
    ⟨some ⟨200, "", some (.obj [("csrf_token", .str "t")])⟩,
     [some ⟨200, "", some (.obj [("file_id", .str "")])⟩],
     none, []⟩
    (.str "t") ⟨200, "", some (.obj [("file_id", .str "")])⟩
    [("file_id", .str "")] (.str "") rfl rfl rfl rfl rfl rfl rfl).1

/-- C3 (counterexample): the polling loop can return a parsed JSON result
that is falsy in Python — here the empty object — and `analyze_track`
then returns the visuals fallback instead of that result with
file_id/filename added. -/
theorem c3_counterexample :
    (poll_json_results (.str "abc") 180
        [⟨0, some ⟨200, "application/json", some (.obj [])⟩⟩]).1 =
      .ok (some (.obj [])) ∧
    (analyze_track "song.mp3" false 180 true
        ⟨some ⟨200, "", some (.obj [("csrf_token", .str "t")])⟩,
         [some ⟨200, "", some (.obj [("file_id", .str "abc")])⟩],
         none,
         [⟨0, some ⟨200, "application/json", some (.obj [])⟩⟩]⟩).1 =
      .ok (visuals_fallback (.str "abc") "song.mp3") ∧
    (analyze_track "song.mp3" false 180 true
        ⟨some ⟨200, "", some (.obj [("csrf_token", .str "t")])⟩,
         [some ⟨200, "", some (.obj [("file_id", .str "abc")])⟩],
         none,
         [⟨0, some ⟨200, "application/json", some (.obj [])⟩⟩]⟩).1 ≠
      .ok (.obj (setdefault (setdefault [] "file_id" (.str "abc"))
          "filename" (.str "song.mp3"))) := by
  refine ⟨rfl, rfl, ?_⟩
  intro h
  have h2 : (analyze_track "song.mp3" false 180 true
      ⟨some ⟨200, "", some (.obj [("csrf_token", .str "t")])⟩,
       [some ⟨200, "", some (.obj [("file_id", .str "abc")])⟩],
       none,
       [⟨0, some ⟨200, "application/json", some (.obj [])⟩⟩]⟩).1 =
      .ok (visuals_fallback (.str "abc") "song.mp3") := rfl
  have h3 := h2.symm.trans h
  simp [visuals_fallback, setdefault, jlookup] at h3

/-- C3 (amended): when the polling loop returns a parsed JSON result that
is a truthy JSON object, `analyze_track` returns that same result with
"file_id" and "filename" set only if absent and every other key's binding
unchanged.  (The restriction to truthy objects is forced: a falsy result
falls through to the visuals fallback, and a truthy non-object would make
`setdefault` raise.) -/
theorem c3_polled_result_finalized
    (filename : String) (is_instrumental : Bool) (timeout : Nat)
    (retry_csrf : Bool) (w : World) (csrf : Json) (r : Response)
    (fields jfields : List (String × Json))
    (hcsrf : get_csrf w.csrf1 = .ok csrf)
    (hpost : (post_with_optional_retry (browser_like_post_headers csrf)
        (upload_data csrf is_instrumental) retry_csrf w.posts w.csrf2).1 =
      .ok r)
    (hstatus : r.status_code = 200)
    (hjson : r.json = some (.obj fields))
    (hres : (dget fields "results").truthy = false)
    (hfid : (dget fields "file_id").truthy = true)
    (hpoll : (poll_json_results (dget fields "file_id") timeout w.polls).1 =
      .ok (some (.obj jfields)))
    (htruthy : (Json.obj jfields).truthy = true) :
    (analyze_track filename is_instrumental timeout retry_csrf w).1 =
      .ok (.obj (setdefault (setdefault jfields "file_id"
          (dget fields "file_id")) "filename" (.str filename))) ∧
    (∀ key, key ≠ "file_id" → key ≠ "filename" →
      jlookup (setdefault (setdefault jfields "file_id"
          (dget fields "file_id")) "filename" (.str filename)) key =
        jlookup jfields key) ∧
    (∀ v, jlookup jfields "file_id" = some v →
      jlookup (setdefault (setdefault jfields "file_id"
          (dget fields "file_id")) "filename" (.str filename)) "file_id" =
        some v) ∧
    (jlookup jfields "file_id" = none →
      jlookup (setdefault (setdefault jfields "file_id"
          (dget fields "file_id")) "filename" (.str filename)) "file_id" =
        some (dget fields "file_id")) ∧
    (∀ v, jlookup jfields "filename" = some v →
      jlookup (setdefault (setdefault jfields "file_id"
          (dget fields "file_id")) "filename" (.str filename)) "filename" =
        some v) ∧
    (jlookup jfields "filename" = none →
      jlookup (setdefault (setdefault jfields "file_id"
          (dget fields "file_id")) "filename" (.str filename)) "filename" =
        some (.str filename)) := by
  have hres' : ((jlookup fields "results").getD Json.null).truthy = false :=
    hres
  have hfid' : ((jlookup fields "file_id").getD Json.null).truthy = true :=
    hfid
  have hpoll' : (poll_json_results ((jlookup fields "file_id").getD Json.null)
      timeout w.polls).1 = .ok (some (.obj jfields)) := hpoll
  refine ⟨?_, ?_, ?_, ?_, ?_, ?_⟩
  · simp [analyze_track, hcsrf, hpost, hstatus, hjson, hres', hfid', dget,
      hpoll', htruthy]
  · intro key h1 h2
    rw [jlookup_setdefault_other h2, jlookup_setdefault_other h1]
  · intro v hv
    rw [jlookup_setdefault_other (by decide),
      setdefault_of_present (by rw [hv]; rfl)]
    exact hv
  · intro hn
    rw [jlookup_setdefault_other (by decide)]
    exact jlookup_setdefault_self_of_none hn _
  · intro v hv
    have hin : jlookup (setdefault jfields "file_id" (dget fields "file_id"))
        "filename" = some v := by
      rw [jlookup_setdefault_other (by decide)]
      exact hv
    rw [setdefault_of_present (by rw [hin]; rfl)]
    exact hin
  · intro hn
    have hin : jlookup (setdefault jfields "file_id" (dget fields "file_id"))
        "filename" = none := by
      rw [jlookup_setdefault_other (by decide)]
      exact hn
    exact jlookup_setdefault_self_of_none hin _

/-- C3 (witness): a concrete polled object gets file_id and filename
appended. -/
theorem c3_polled_result_witness :
    (analyze_track "n.mp3" false 180 true
        ⟨some ⟨200, "", some (.obj [("csrf_token", .str "t")])⟩,
         [some ⟨200, "", some (.obj [("file_id", .str "abc")])⟩],
         none,
         [⟨0, some ⟨200, "application/json",
             some (.obj [("x", .num 1)])⟩⟩]⟩).1 =
      .ok (.obj [("x", .num 1), ("file_id", .str "abc"),
        ("filename", .str "n.mp3")]) :=
  (c3_polled_result_finalized "n.mp3" false 180 true
    ⟨some ⟨200, "", some (.obj [("csrf_token", .str "t")])⟩,
     [some ⟨200, "", some (.obj [("file_id", .str "abc")])⟩],
     none,
     [⟨0, some ⟨200, "application/json", some (.obj [("x", .num 1)])⟩⟩]⟩
    (.str "t") ⟨200, "", some (.obj [("file_id", .str "abc")])⟩
    [("file_id", .str "abc")] [("x", .num 1)]
    rfl rfl rfl rfl rfl rfl rfl rfl).1

/-- C2 (counterexample): polling can raise.  The poll GET inside the loop
is not guarded by a try/except, so a transport exception (connection
error or per-request timeout) during a poll propagates out of
`analyze_track` even though a file_id was obtained and polling was
entered (one poll GET is in the trace). -/
theorem c2_counterexample :
    (analyze_track "f.mp3" false 180 true
        ⟨some ⟨200, "", some (.obj [("csrf_token", .str "t")])⟩,
         [some ⟨200, "", some (.obj [("file_id", .str "abc")])⟩],
         none,
         [⟨0, none⟩]⟩).1 = .error .transport ∧
    countPollGets (analyze_track "f.mp3" false 180 true
        ⟨some ⟨200, "", some (.obj [("csrf_token", .str "t")])⟩,
         [some ⟨200, "", some (.obj [("file_id", .str "abc")])⟩],
         none,
         [⟨0, none⟩]⟩).2 = 1 := ⟨rfl, rfl⟩

/-- C2 (amended): once a file_id was obtained, every polling-phase HTTP
response is absorbed: provided each poll GET returns a response (no
transport exception — the unguarded case the claim overlooks) and any
truthy JSON payload a poll returns is an object (so the final
`setdefault` cannot raise), `analyze_track` returns a result — either
the finalized polled JSON or the visuals fallback. -/
theorem c2_polling_degrades_gracefully
    (filename : String) (is_instrumental : Bool) (timeout : Nat)
    (retry_csrf : Bool) (w : World) (csrf : Json) (r : Response)
    (fields : List (String × Json))
    (hcsrf : get_csrf w.csrf1 = .ok csrf)
    (hpost : (post_with_optional_retry (browser_like_post_headers csrf)
        (upload_data csrf is_instrumental) retry_csrf w.posts w.csrf2).1 =
      .ok r)
    (hstatus : r.status_code = 200)
    (hjson : r.json = some (.obj fields))
    (hres : (dget fields "results").truthy = false)
    (hfid : (dget fields "file_id").truthy = true)
    (hpolls : ∀ s ∈ w.polls, s.resp ≠ none)
    (hobj : ∀ s ∈ w.polls, ∀ r', s.resp = some r' → ∀ j, r'.json = some j →
      j.truthy = true → j.isObj = true) :
    ∃ jr, (analyze_track filename is_instrumental timeout retry_csrf w).1 =
        .ok jr ∧
      (jr = visuals_fallback (dget fields "file_id") filename ∨
       ∃ jfields,
         (poll_json_results (dget fields "file_id") timeout w.polls).1 =
           .ok (some (.obj jfields)) ∧
         jr = .obj (setdefault (setdefault jfields "file_id"
             (dget fields "file_id")) "filename" (.str filename))) := by
  have hres' : ((jlookup fields "results").getD Json.null).truthy = false :=
    hres
  have hfid' : ((jlookup fields "file_id").getD Json.null).truthy = true :=
    hfid
  obtain ⟨o, ho⟩ := poll_loop_no_transport
    (results_json_url ((jlookup fields "file_id").getD Json.null)) timeout
    w.polls hpolls 0
  have hpoll' : (poll_json_results ((jlookup fields "file_id").getD Json.null)
      timeout w.polls).1 = .ok o := ho
  cases o with
  | none =>
    refine ⟨visuals_fallback (dget fields "file_id") filename, ?_, .inl rfl⟩
    simp [analyze_track, hcsrf, hpost, hstatus, hjson, hres', hfid', dget,
      hpoll']
  | some jr =>
    by_cases ht : jr.truthy = true
    · obtain ⟨s, hs, r', hr', hj'⟩ :=
        poll_loop_payload_source
          (results_json_url ((jlookup fields "file_id").getD Json.null))
          timeout w.polls 0 jr ho
      have hisobj : jr.isObj = true := hobj s hs r' hr' jr hj' ht
      cases jr with
      | obj jfields =>
        refine ⟨.obj (setdefault (setdefault jfields "file_id"
            (dget fields "file_id")) "filename" (.str filename)), ?_,
          .inr ⟨jfields, hpoll', rfl⟩⟩
        simp [analyze_track, hcsrf, hpost, hstatus, hjson, hres', hfid',
          dget, hpoll', ht]
      | null => simp [Json.isObj] at hisobj
      | bool b => simp [Json.isObj] at hisobj
      | num n => simp [Json.isObj] at hisobj
      | str s' => simp [Json.isObj] at hisobj
      | arr elems => simp [Json.isObj] at hisobj
    · refine ⟨visuals_fallback (dget fields "file_id") filename, ?_, .inl rfl⟩
      simp [analyze_track, hcsrf, hpost, hstatus, hjson, hres', hfid', dget,
        hpoll', ht]

/-- C2 (witness): with no in-time poll producing JSON, the call ends in
the visuals fallback rather than an error. -/
theorem c2_polling_witness :
    ∃ jr, (analyze_track "w.mp3" false 60 true
        ⟨some ⟨200, "", some (.obj [("csrf_token", .str "t")])⟩,
         [some ⟨200, "", some (.obj [("file_id", .str "xyz")])⟩],
         none, []⟩).1 = .ok jr ∧
      (jr = visuals_fallback
          (dget [("file_id", .str "xyz")] "file_id") "w.mp3" ∨
       ∃ jfields,
         (poll_json_results (dget [("file_id", .str "xyz")] "file_id") 60
             []).1 = .ok (some (.obj jfields)) ∧
         jr = .obj (setdefault (setdefault jfields "file_id"
             (dget [("file_id", .str "xyz")] "file_id")) "filename"
             (.str "w.mp3"))) :=
  c2_polling_degrades_gracefully "w.mp3" false 60 true
    ⟨some ⟨200, "", some (.obj [("csrf_token", .str "t")])⟩,
     [some ⟨200, "", some (.obj [("file_id", .str "xyz")])⟩],
     none, []⟩
    (.str "t") ⟨200, "", some (.obj [("file_id", .str "xyz")])⟩
    [("file_id", .str "xyz")] rfl rfl rfl rfl rfl rfl
    (by intro s hs; simp at hs) (by intro s hs; simp at hs)

/-- C1: retry discipline of `_post_with_optional_retry`, given that the
initial POST produced a response `r1`.  (a) Exactly one CSRF refresh is
attempted iff `r1` is 401/403 and retry is enabled.  (b) A successful
refresh is followed by exactly one retried POST whose headers and form
data carry the refreshed token.  (c) A failed refresh is swallowed: the
original failed response stands and nothing further happens.  (c') An
exception in the retried POST is swallowed likewise.  (d) Without the
auth condition, the overload retry alone fires — one sleep of 2 seconds
and one more POST — iff the status is in {429, 500, 502, 503, 504}.
(d') Both conditions can fire in sequence, refresh first and then one
overload retry judged on the retried response.  (e) Never a loop: at
most three POSTs, one refresh, one sleep, and every sleep is 2 s. -/
theorem c1_post_retry_discipline (headers data : SMap) (retry_csrf : Bool)
    (r1 : Response) (rest : List (Option Response))
    (csrf_outcome : Option Response) (out : Except Unit Response × List NetEv)
    (hout : out = post_with_optional_retry headers data retry_csrf
      (some r1 :: rest) csrf_outcome) :
    (countCsrfGets out.2 =
      if (r1.status_code = 401 ∨ r1.status_code = 403) ∧ retry_csrf = true
      then 1 else 0) ∧
    (∀ tok, (r1.status_code = 401 ∨ r1.status_code = 403) →
      retry_csrf = true → get_csrf csrf_outcome = .ok tok →
      out.2.take 3 =
        [.post headers data, .csrf_get,
         .post (supdate headers (browser_like_post_headers tok))
           (sset data "csrf_token" tok)] ∧
      jlookup (supdate headers (browser_like_post_headers tok))
        "X-CSRFToken" = some tok ∧
      jlookup (sset data "csrf_token" tok) "csrf_token" = some tok) ∧
    (∀ e, (r1.status_code = 401 ∨ r1.status_code = 403) →
      retry_csrf = true → get_csrf csrf_outcome = .error e →
      out = (.ok r1, [.post headers data, .csrf_get])) ∧
    (∀ tok, (r1.status_code = 401 ∨ r1.status_code = 403) →
      retry_csrf = true → get_csrf csrf_outcome = .ok tok →
      firstOutcome rest = none →
      out = (.ok r1,
        [.post headers data, .csrf_get,
         .post (supdate headers (browser_like_post_headers tok))
           (sset data "csrf_token" tok)])) ∧
    (¬ ((r1.status_code = 401 ∨ r1.status_code = 403) ∧ retry_csrf = true) →
      (r1.status_code ∈ overload_statuses →
        out.2 = [.post headers data, .sleep 2, .post headers data] ∧
        (∀ r3, firstOutcome rest = some r3 → out.1 = .ok r3) ∧
        (firstOutcome rest = none → out.1 = .error ())) ∧
      (r1.status_code ∉ overload_statuses →
        out = (.ok r1, [.post headers data]))) ∧
    (∀ tok r2, (r1.status_code = 401 ∨ r1.status_code = 403) →
      retry_csrf = true → get_csrf csrf_outcome = .ok tok →
      firstOutcome rest = some r2 →
      (r2.status_code ∈ overload_statuses →
        out.2 =
          [.post headers data, .csrf_get,
           .post (supdate headers (browser_like_post_headers tok))
             (sset data "csrf_token" tok),
           .sleep 2,
           .post (supdate headers (browser_like_post_headers tok))
             (sset data "csrf_token" tok)] ∧
        (∀ r3, secondOutcome rest = some r3 → out.1 = .ok r3) ∧
        (secondOutcome rest = none → out.1 = .error ())) ∧
      (r2.status_code ∉ overload_statuses →
        out.1 = .ok r2 ∧ countSleeps out.2 = 0)) ∧
    (countPosts out.2 ≤ 3 ∧ countCsrfGets out.2 ≤ 1 ∧
     countSleeps out.2 ≤ 1 ∧ ∀ n, NetEv.sleep n ∈ out.2 → n = 2) := by
  subst hout
  by_cases hauth :
    (r1.status_code = 401 ∨ r1.status_code = 403) ∧ retry_csrf = true
  · have hnotov : r1.status_code ∉ overload_statuses := by
      rcases hauth.1 with h | h <;> simp [h, overload_statuses]
    cases hg : get_csrf csrf_outcome with
    | error e0 =>
      have hcomp : post_with_optional_retry headers data retry_csrf
          (some r1 :: rest) csrf_outcome =
          (.ok r1, [.post headers data, .csrf_get]) := by
        simp [post_with_optional_retry, refresh_branch, overload_branch,
          hauth, hg, hnotov]
      refine ⟨?_, ?_, ?_, ?_, ?_, ?_, ?_⟩
      · rw [hcomp, if_pos hauth]
        rfl
      · intro tok _ _ hok
        exact Except.noConfusion hok
      · intro e _ _ _
        exact hcomp
      · intro tok _ _ hok _
        exact Except.noConfusion hok
      · intro hna
        exact absurd hauth hna
      · intro tok r2 _ _ hok _
        exact Except.noConfusion hok
      · rw [hcomp]
        refine ⟨by simp [countPosts], by simp [countCsrfGets],
          by simp [countSleeps], ?_⟩
        intro n hn
        simp at hn
    | ok tok =>
      cases rest with
      | nil =>
        have hcomp : post_with_optional_retry headers data retry_csrf
            (some r1 :: []) csrf_outcome =
            (.ok r1,
             [.post headers data, .csrf_get,
              .post (supdate headers (browser_like_post_headers tok))
                (sset data "csrf_token" tok)]) := by
          simp [post_with_optional_retry, refresh_branch, overload_branch,
            hauth, hg, hnotov]
        refine ⟨?_, ?_, ?_, ?_, ?_, ?_, ?_⟩
        · rw [hcomp, if_pos hauth]
          rfl
        · intro tok' _ _ hok
          injection hok with h
          subst h
          exact ⟨by rw [hcomp]; rfl, supdate_browser_headers_token _ _,
            jlookup_sset_self _ _ _⟩
        · intro e _ _ herr
          exact Except.noConfusion herr
        · intro tok' _ _ hok _
          injection hok with h
          subst h
          exact hcomp
        · intro hna
          exact absurd hauth hna
        · intro tok' r2 _ _ _ hfo
          exact Option.noConfusion hfo
        · rw [hcomp]
          refine ⟨by simp [countPosts], by simp [countCsrfGets],
            by simp [countSleeps], ?_⟩
          intro n hn
          simp at hn
      | cons o rest' =>
        cases o with
        | none =>
          have hcomp : post_with_optional_retry headers data retry_csrf
              (some r1 :: none :: rest') csrf_outcome =
              (.ok r1,
               [.post headers data, .csrf_get,
                .post (supdate headers (browser_like_post_headers tok))
                  (sset data "csrf_token" tok)]) := by
            simp [post_with_optional_retry, refresh_branch, overload_branch,
              hauth, hg, hnotov]
          refine ⟨?_, ?_, ?_, ?_, ?_, ?_, ?_⟩
          · rw [hcomp, if_pos hauth]
            rfl
          · intro tok' _ _ hok
            injection hok with h
            subst h
            exact ⟨by rw [hcomp]; rfl, supdate_browser_headers_token _ _,
              jlookup_sset_self _ _ _⟩
          · intro e _ _ herr
            exact Except.noConfusion herr
          · intro tok' _ _ hok _
            injection hok with h
            subst h
            exact hcomp
          · intro hna
            exact absurd hauth hna
          · intro tok' r2 _ _ _ hfo
            simp [firstOutcome] at hfo
          · rw [hcomp]
            refine ⟨by simp [countPosts], by simp [countCsrfGets],
              by simp [countSleeps], ?_⟩
            intro n hn
            simp at hn
        | some r2 =>
          by_cases hov : r2.status_code ∈ overload_statuses
          · cases hfo2 : firstOutcome rest' with
            | none =>
              have hcomp : post_with_optional_retry headers data retry_csrf
                  (some r1 :: some r2 :: rest') csrf_outcome =
                  (.error (),
                   [.post headers data, .csrf_get,
                    .post (supdate headers (browser_like_post_headers tok))
                      (sset data "csrf_token" tok),
                    .sleep 2,
                    .post (supdate headers (browser_like_post_headers tok))
                      (sset data "csrf_token" tok)]) := by
                simp [post_with_optional_retry, refresh_branch,
                  overload_branch, hauth, hg, hov, hfo2]
              refine ⟨?_, ?_, ?_, ?_, ?_, ?_, ?_⟩
              · rw [hcomp, if_pos hauth]
                rfl
              · intro tok' _ _ hok
                injection hok with h
                subst h
                exact ⟨by rw [hcomp]; rfl, supdate_browser_headers_token _ _,
                  jlookup_sset_self _ _ _⟩
              · intro e _ _ herr
                exact Except.noConfusion herr
              · intro tok' _ _ _ hfo
                simp [firstOutcome] at hfo
              · intro hna
                exact absurd hauth hna
              · intro tok' r2' _ _ hok hfo
                injection hok with h
                subst h
                simp only [firstOutcome, Option.some.injEq] at hfo
                subst hfo
                refine ⟨fun _ => ⟨by rw [hcomp], ?_, fun _ => by
                  rw [hcomp]⟩, fun hnov => absurd hov hnov⟩
                intro r3 hr3
                simp only [secondOutcome] at hr3
                rw [hfo2] at hr3
                exact Option.noConfusion hr3
              · rw [hcomp]
                refine ⟨by simp [countPosts], by simp [countCsrfGets],
                  by simp [countSleeps], ?_⟩
                intro n hn
                simp at hn
                exact hn
            | some r3 =>
              have hcomp : post_with_optional_retry headers data retry_csrf
                  (some r1 :: some r2 :: rest') csrf_outcome =
                  (.ok r3,
                   [.post headers data, .csrf_get,
                    .post (supdate headers (browser_like_post_headers tok))
                      (sset data "csrf_token" tok),
                    .sleep 2,
                    .post (supdate headers (browser_like_post_headers tok))
                      (sset data "csrf_token" tok)]) := by
                simp [post_with_optional_retry, refresh_branch,
                  overload_branch, hauth, hg, hov, hfo2]
              refine ⟨?_, ?_, ?_, ?_, ?_, ?_, ?_⟩
              · rw [hcomp, if_pos hauth]
                rfl
              · intro tok' _ _ hok
                injection hok with h
                subst h
                exact ⟨by rw [hcomp]; rfl, supdate_browser_headers_token _ _,
                  jlookup_sset_self _ _ _⟩
              · intro e _ _ herr
                exact Except.noConfusion herr
              · intro tok' _ _ _ hfo
                simp [firstOutcome] at hfo
              · intro hna
                exact absurd hauth hna
              · intro tok' r2' _ _ hok hfo
                injection hok with h
                subst h
                simp only [firstOutcome, Option.some.injEq] at hfo
                subst hfo
                refine ⟨fun _ => ⟨by rw [hcomp], ?_, ?_⟩,
                  fun hnov => absurd hov hnov⟩
                · intro r3' hr3
                  simp only [secondOutcome] at hr3
                  rw [hfo2] at hr3
                  injection hr3 with h3
                  subst h3
                  rw [hcomp]
                · intro hr3
                  simp only [secondOutcome] at hr3
                  rw [hfo2] at hr3
                  exact Option.noConfusion hr3
              · rw [hcomp]
                refine ⟨by simp [countPosts], by simp [countCsrfGets],
                  by simp [countSleeps], ?_⟩
                intro n hn
                simp at hn
                exact hn
          · have hcomp : post_with_optional_retry headers data retry_csrf
                (some r1 :: some r2 :: rest') csrf_outcome =
                (.ok r2,
                 [.post headers data, .csrf_get,
                  .post (supdate headers (browser_like_post_headers tok))
                    (sset data "csrf_token" tok)]) := by
              simp [post_with_optional_retry, refresh_branch,
                overload_branch, hauth, hg, hov]
            refine ⟨?_, ?_, ?_, ?_, ?_, ?_, ?_⟩
            · rw [hcomp, if_pos hauth]
              rfl
            · intro tok' _ _ hok
              injection hok with h
              subst h
              exact ⟨by rw [hcomp]; rfl, supdate_browser_headers_token _ _,
                jlookup_sset_self _ _ _⟩
            · intro e _ _ herr
              exact Except.noConfusion herr
            · intro tok' _ _ _ hfo
              simp [firstOutcome] at hfo
            · intro hna
              exact absurd hauth hna
            · intro tok' r2' _ _ hok hfo
              injection hok with h
              subst h
              simp only [firstOutcome, Option.some.injEq] at hfo
              subst hfo
              exact ⟨fun hov' => absurd hov' hov,
                fun _ => ⟨by rw [hcomp], by rw [hcomp]; rfl⟩⟩
            · rw [hcomp]
              refine ⟨by simp [countPosts], by simp [countCsrfGets],
                by simp [countSleeps], ?_⟩
              intro n hn
              simp at hn
  · by_cases hov : r1.status_code ∈ overload_statuses
    · cases hfo : firstOutcome rest with
      | none =>
        have hcomp : post_with_optional_retry headers data retry_csrf
            (some r1 :: rest) csrf_outcome =
            (.error (),
             [.post headers data, .sleep 2, .post headers data]) := by
          simp [post_with_optional_retry, refresh_branch, overload_branch,
            hauth, hov, hfo]
        refine ⟨?_, ?_, ?_, ?_, ?_, ?_, ?_⟩
        · rw [hcomp, if_neg hauth]
          rfl
        · intro tok h43 hrc _
          exact absurd ⟨h43, hrc⟩ hauth
        · intro e h43 hrc _
          exact absurd ⟨h43, hrc⟩ hauth
        · intro tok h43 hrc _ _
          exact absurd ⟨h43, hrc⟩ hauth
        · intro _
          refine ⟨fun _ => ⟨by rw [hcomp], ?_, fun _ => by rw [hcomp]⟩,
            fun hnov => absurd hov hnov⟩
          intro r3 hr3
          exact Option.noConfusion hr3
        · intro tok r2 h43 hrc _ _
          exact absurd ⟨h43, hrc⟩ hauth
        · rw [hcomp]
          refine ⟨by simp [countPosts], by simp [countCsrfGets],
            by simp [countSleeps], ?_⟩
          intro n hn
          simp at hn
          exact hn
      | some r3 =>
        have hcomp : post_with_optional_retry headers data retry_csrf
            (some r1 :: rest) csrf_outcome =
            (.ok r3,
             [.post headers data, .sleep 2, .post headers data]) := by
          simp [post_with_optional_retry, refresh_branch, overload_branch,
            hauth, hov, hfo]
        refine ⟨?_, ?_, ?_, ?_, ?_, ?_, ?_⟩
        · rw [hcomp, if_neg hauth]
          rfl
        · intro tok h43 hrc _
          exact absurd ⟨h43, hrc⟩ hauth
        · intro e h43 hrc _
          exact absurd ⟨h43, hrc⟩ hauth
        · intro tok h43 hrc _ _
          exact absurd ⟨h43, hrc⟩ hauth
        · intro _
          refine ⟨fun _ => ⟨by rw [hcomp], ?_, ?_⟩,
            fun hnov => absurd hov hnov⟩
          · intro r3' hr3
            injection hr3 with h3
            subst h3
            rw [hcomp]
          · intro hr3
            exact Option.noConfusion hr3
        · intro tok r2 h43 hrc _ _
          exact absurd ⟨h43, hrc⟩ hauth
        · rw [hcomp]
          refine ⟨by simp [countPosts], by simp [countCsrfGets],
            by simp [countSleeps], ?_⟩
          intro n hn
          simp at hn
          exact hn
    · have hcomp : post_with_optional_retry headers data retry_csrf
          (some r1 :: rest) csrf_outcome =
          (.ok r1, [.post headers data]) := by
        simp [post_with_optional_retry, refresh_branch, overload_branch,
          hauth, hov]
      refine ⟨?_, ?_, ?_, ?_, ?_, ?_, ?_⟩
      · rw [hcomp, if_neg hauth]
        rfl
      · intro tok h43 hrc _
        exact absurd ⟨h43, hrc⟩ hauth
      · intro e h43 hrc _
        exact absurd ⟨h43, hrc⟩ hauth
      · intro tok h43 hrc _ _
        exact absurd ⟨h43, hrc⟩ hauth
      · intro _
        exact ⟨fun hov' => absurd hov' hov, fun _ => hcomp⟩
      · intro tok r2 h43 hrc _ _
        exact absurd ⟨h43, hrc⟩ hauth
      · rw [hcomp]
        refine ⟨by simp [countPosts], by simp [countCsrfGets],
          by simp [countSleeps], ?_⟩
        intro n hn
        simp at hn

/-- C1 (witness): a 403 first response with a failing refresh GET is
swallowed and the original response stands after one POST and one
refresh attempt. -/
theorem c1_post_retry_witness :
    post_with_optional_retry [] [] true [some ⟨403, "", none⟩] none =
      (.ok ⟨403, "", none⟩, [.post [] [], .csrf_get]) :=
  (c1_post_retry_discipline [] [] true ⟨403, "", none⟩ [] none
    (post_with_optional_retry [] [] true [some ⟨403, "", none⟩] none)
    rfl).2.2.1 .transport (.inr rfl) rfl rfl
